import Mathlib

/-!
Verification of the LogPose worker configuration loader
(`packages/worker/src/atlas_worker/config.py`).

The source declares a `Settings` record (pydantic `BaseSettings`) with
fifteen fields, each with a compiled-in default, populated from the process
environment and an optional `.env` file.  The declaration configures the
loader with `case_sensitive=True`, `extra="ignore"` and
`env_parse_none_str="None"`.

The field names, field types, defaults and the configuration flags are
embedded directly from the source file.  The merge and coercion algorithm
itself lives in the `pydantic_settings` library, which is not part of the
repository sources; it is modelled here from the specification (§4.1):
process environment beats `.env` file beats default, exact-case key
matching, unknown keys ignored, integer fields parsed with decimal parsing
failing with a `ConfigError` naming field and value, optional string
fields mapping the literal source string "None" to the absent value.
-/

set_option autoImplicit false

namespace LogPose

/-- The error raised when an integer field's source value cannot be parsed.
The specification (§7) requires the message to name the offending field and
the invalid value supplied; we carry both as structured data. -/
structure ConfigError where
  field : String
  value : String
  deriving Repr, DecidableEq

/-- The `Settings` record of `config.py`, field for field and in declaration
order.  `Path`-typed fields are carried as raw strings (the loader performs
no existence checks), `Optional[str]` fields as `Option String`, `int`
fields as `Int`. -/
structure Settings where
  HTTP_BASE_URL : String
  HTTP_TIMEOUT : Int
  ARGO_DAC : String
  LOCAL_STAGE_PATH : String
  PARQUET_STAGING_PATH : String
  ENVIRONMENT : String
  LOG_LEVEL : String
  PG_WRITE_URL : Option String
  DB_TIMEOUT : Int
  S3_ACCESS_KEY : Option String
  S3_SECRET_KEY : Option String
  S3_BUCKET_NAME : String
  S3_ENDPOINT : Option String
  S3_REGION : String
  PARQUET_COMPRESSION : String
  deriving Repr, DecidableEq

/-- The compiled-in defaults declared on the `Settings` class in the
source. -/
def defaultSettings : Settings where
  HTTP_BASE_URL := "https://data-argo.ifremer.fr"
  HTTP_TIMEOUT := 30
  ARGO_DAC := "incois"
  LOCAL_STAGE_PATH := "/tmp/raw_staging"
  PARQUET_STAGING_PATH := "/tmp/parquet_staging"
  ENVIRONMENT := "prod"
  LOG_LEVEL := "INFO"
  PG_WRITE_URL := none
  DB_TIMEOUT := 30
  S3_ACCESS_KEY := none
  S3_SECRET_KEY := none
  S3_BUCKET_NAME := "atlas"
  S3_ENDPOINT := none
  S3_REGION := "auto"
  PARQUET_COMPRESSION := "snappy"

/-- The declared field names of `Settings`, in declaration order.  These are
the only keys the loader looks up (`extra="ignore"`). -/
def declaredFields : List String :=
  ["HTTP_BASE_URL", "HTTP_TIMEOUT", "ARGO_DAC", "LOCAL_STAGE_PATH",
   "PARQUET_STAGING_PATH", "ENVIRONMENT", "LOG_LEVEL", "PG_WRITE_URL",
   "DB_TIMEOUT", "S3_ACCESS_KEY", "S3_SECRET_KEY", "S3_BUCKET_NAME",
   "S3_ENDPOINT", "S3_REGION", "PARQUET_COMPRESSION"]

/-- The `Optional[str]` fields of `Settings`. -/
def optionalNames : List String :=
  ["PG_WRITE_URL", "S3_ACCESS_KEY", "S3_SECRET_KEY", "S3_ENDPOINT"]

/-- The plain (non-optional) string and path fields of `Settings`. -/
def plainStringNames : List String :=
  ["HTTP_BASE_URL", "ARGO_DAC", "LOCAL_STAGE_PATH", "PARQUET_STAGING_PATH",
   "ENVIRONMENT", "LOG_LEVEL", "S3_BUCKET_NAME", "S3_REGION",
   "PARQUET_COMPRESSION"]

/-- A set of environment variables (the process environment, or the parsed
key/value pairs of a `.env` file), as an association list; the first
occurrence of a key wins. -/
abbrev EnvMap := List (String × String)

/-- Exact-case lookup of a key in an environment.  The source sets
`case_sensitive=True`, so matching is plain string equality with no case
folding. -/
def lookupKey : EnvMap → String → Option String
  | [], _ => none
  | (k, v) :: rest, n => if n = k then some v else lookupKey rest n

/-- Modelled from the spec: the per-field source selection of the
`pydantic_settings` loader (not part of the repository sources).  Per §4.1
the process environment has the highest precedence; the `.env` file (when
present, `dotenv = some fileVars`; a missing file is `none`) is consulted
only when the process environment does not define the key. -/
def sourceValue (env : EnvMap) (dotenv : Option EnvMap) (n : String) :
    Option String :=
  match lookupKey env n with
  | some v => some v
  | none =>
    match dotenv with
    | some fileVars => lookupKey fileVars n
    | none => none

/-- Modelled from the spec: coercion for a plain string field — the raw
source string unchanged, or the default when no source defines the key. -/
def coerceStr (dflt : String) : Option String → String
  | none => dflt
  | some s => s

/-- Modelled from the spec: coercion for an `Optional[str]` field.  The
literal source string "None" (the `env_parse_none_str` sentinel, exact
case) maps to the absent value; any other supplied string, the empty
string included, is held as present; an undefined key yields the default
`none`. -/
def coerceOptStr : Option String → Option String
  | none => none
  | some s => if s = "None" then none else some s

/-- The numeric value of a decimal digit character, `none` for any other
character. -/
def digitVal (c : Char) : Option Nat :=
  if 48 ≤ c.toNat ∧ c.toNat ≤ 57 then some (c.toNat - 48) else none

/-- Accumulating left-to-right decimal evaluation of a digit list, failing
on the first non-digit. -/
def parseDigitsAux : List Char → Nat → Option Nat
  | [], acc => some acc
  | c :: cs, acc =>
    match digitVal c with
    | some d => parseDigitsAux cs (acc * 10 + d)
    | none => none

/-- A non-empty all-digit list evaluated as a decimal natural number. -/
def parseNat : List Char → Option Nat
  | [] => none
  | cs => parseDigitsAux cs 0

/-- Modelled from the spec: standard decimal integer parsing of a source
string — an optional leading sign followed by at least one decimal digit;
anything else (for example "thirty") fails to parse. -/
def parseInt (s : String) : Option Int :=
  match s.data with
  | [] => none
  | '-' :: rest => (parseNat rest).map fun n => -(n : Int)
  | '+' :: rest => (parseNat rest).map fun n => (n : Int)
  | cs => (parseNat cs).map fun n => (n : Int)

/-- Modelled from the spec: coercion for an integer field — standard
decimal integer parsing of the source string, failing with a `ConfigError`
carrying the field name and the invalid value; an undefined key yields the
default. -/
def coerceInt (name : String) (dflt : Int) : Option String →
    Except ConfigError Int
  | none => Except.ok dflt
  | some s =>
    match parseInt s with
    | some n => Except.ok n
    | none => Except.error { field := name, value := s }

/-- Modelled from the spec: construction of the `Settings` record from a
per-field source lookup `get`.  Every field is filled with its coerced
source value or its default; the integer fields (`HTTP_TIMEOUT` first,
in declaration order) are the only fallible ones. -/
def loadFrom (get : String → Option String) : Except ConfigError Settings :=
  match coerceInt "HTTP_TIMEOUT" 30 (get "HTTP_TIMEOUT"),
        coerceInt "DB_TIMEOUT" 30 (get "DB_TIMEOUT") with
  | Except.error e, _ => Except.error e
  | Except.ok _, Except.error e => Except.error e
  | Except.ok httpTimeout, Except.ok dbTimeout =>
    Except.ok
      { HTTP_BASE_URL :=
          coerceStr "https://data-argo.ifremer.fr" (get "HTTP_BASE_URL")
        HTTP_TIMEOUT := httpTimeout
        ARGO_DAC := coerceStr "incois" (get "ARGO_DAC")
        LOCAL_STAGE_PATH :=
          coerceStr "/tmp/raw_staging" (get "LOCAL_STAGE_PATH")
        PARQUET_STAGING_PATH :=
          coerceStr "/tmp/parquet_staging" (get "PARQUET_STAGING_PATH")
        ENVIRONMENT := coerceStr "prod" (get "ENVIRONMENT")
        LOG_LEVEL := coerceStr "INFO" (get "LOG_LEVEL")
        PG_WRITE_URL := coerceOptStr (get "PG_WRITE_URL")
        DB_TIMEOUT := dbTimeout
        S3_ACCESS_KEY := coerceOptStr (get "S3_ACCESS_KEY")
        S3_SECRET_KEY := coerceOptStr (get "S3_SECRET_KEY")
        S3_BUCKET_NAME := coerceStr "atlas" (get "S3_BUCKET_NAME")
        S3_ENDPOINT := coerceOptStr (get "S3_ENDPOINT")
        S3_REGION := coerceStr "auto" (get "S3_REGION")
        PARQUET_COMPRESSION := coerceStr "snappy" (get "PARQUET_COMPRESSION") }

/-- Modelled from the spec: `Settings()` construction — the
`pydantic_settings` load of the class declared in `config.py`, from a
process environment `env` and an optional `.env` file `dotenv` (`none`
when the file does not exist). -/
def load (env : EnvMap) (dotenv : Option EnvMap) : Except ConfigError Settings :=
  loadFrom (sourceValue env dotenv)

/-- View of the four `Optional[str]` fields of a `Settings` record by field
name (`none` for a name that is not an optional field). -/
def optField (s : Settings) : String → Option (Option String)
  | "PG_WRITE_URL" => some s.PG_WRITE_URL
  | "S3_ACCESS_KEY" => some s.S3_ACCESS_KEY
  | "S3_SECRET_KEY" => some s.S3_SECRET_KEY
  | "S3_ENDPOINT" => some s.S3_ENDPOINT
  | _ => none

/-- View of the nine plain string and path fields of a `Settings` record by
field name (`none` for a name that is not such a field). -/
def strField (s : Settings) : String → Option String
  | "HTTP_BASE_URL" => some s.HTTP_BASE_URL
  | "ARGO_DAC" => some s.ARGO_DAC
  | "LOCAL_STAGE_PATH" => some s.LOCAL_STAGE_PATH
  | "PARQUET_STAGING_PATH" => some s.PARQUET_STAGING_PATH
  | "ENVIRONMENT" => some s.ENVIRONMENT
  | "LOG_LEVEL" => some s.LOG_LEVEL
  | "S3_BUCKET_NAME" => some s.S3_BUCKET_NAME
  | "S3_REGION" => some s.S3_REGION
  | "PARQUET_COMPRESSION" => some s.PARQUET_COMPRESSION
  | _ => none

/-- The environment with every key that is not a declared `Settings` field
removed. -/
def filterDeclared (l : EnvMap) : EnvMap :=
  l.filter fun q => declaredFields.contains q.1

theorem lookupKey_cons_ne (k v n : String) (l : EnvMap) (h : n ≠ k) :
    lookupKey ((k, v) :: l) n = lookupKey l n := by
  simp [lookupKey, h]

theorem lookupKey_append (a b : EnvMap) (n : String) :
    lookupKey (a ++ b) n =
      match lookupKey a n with
      | some v => some v
      | none => lookupKey b n := by
  induction a with
  | nil => simp [lookupKey]
  | cons q rest ih =>
    obtain ⟨k, v⟩ := q
    by_cases h : n = k
    · subst h
      simp [lookupKey]
    · rw [List.cons_append, lookupKey_cons_ne k v n _ h,
        lookupKey_cons_ne k v n rest h, ih]

theorem lookupKey_filter (p : String → Bool) (l : EnvMap) (n : String)
    (hp : p n = true) :
    lookupKey (l.filter fun q => p q.1) n = lookupKey l n := by
  induction l with
  | nil => rfl
  | cons q rest ih =>
    obtain ⟨k, v⟩ := q
    by_cases h : n = k
    · subst h
      simp [List.filter_cons, hp, lookupKey]
    · cases hpk : p k
      · rw [lookupKey_cons_ne k v n rest h, ← ih]
        simp [List.filter_cons, hpk]
      · rw [lookupKey_cons_ne k v n rest h, ← ih]
        simp [List.filter_cons, hpk, lookupKey_cons_ne k v n _ h]

theorem loadFrom_congr (g₁ g₂ : String → Option String)
    (h : ∀ n ∈ declaredFields, g₁ n = g₂ n) : loadFrom g₁ = loadFrom g₂ := by
  have e01 := h "HTTP_BASE_URL" (by simp [declaredFields])
  have e02 := h "HTTP_TIMEOUT" (by simp [declaredFields])
  have e03 := h "ARGO_DAC" (by simp [declaredFields])
  have e04 := h "LOCAL_STAGE_PATH" (by simp [declaredFields])
  have e05 := h "PARQUET_STAGING_PATH" (by simp [declaredFields])
  have e06 := h "ENVIRONMENT" (by simp [declaredFields])
  have e07 := h "LOG_LEVEL" (by simp [declaredFields])
  have e08 := h "PG_WRITE_URL" (by simp [declaredFields])
  have e09 := h "DB_TIMEOUT" (by simp [declaredFields])
  have e10 := h "S3_ACCESS_KEY" (by simp [declaredFields])
  have e11 := h "S3_SECRET_KEY" (by simp [declaredFields])
  have e12 := h "S3_BUCKET_NAME" (by simp [declaredFields])
  have e13 := h "S3_ENDPOINT" (by simp [declaredFields])
  have e14 := h "S3_REGION" (by simp [declaredFields])
  have e15 := h "PARQUET_COMPRESSION" (by simp [declaredFields])
  simp only [loadFrom, e01, e02, e03, e04, e05, e06, e07, e08, e09, e10,
    e11, e12, e13, e14, e15]

theorem sourceValue_none (env : EnvMap) (n : String) :
    sourceValue env none n = lookupKey env n := by
  cases h : lookupKey env n with
  | some v => unfold sourceValue; rw [h]
  | none => unfold sourceValue; rw [h]

theorem sourceValue_some (env fvars : EnvMap) (n : String) :
    sourceValue env (some fvars) n =
      match lookupKey env n with
      | some v => some v
      | none => lookupKey fvars n := by
  cases h : lookupKey env n with
  | some v => unfold sourceValue; rw [h]
  | none => unfold sourceValue; rw [h]

theorem sourceValue_append (env fileVars : EnvMap) (n : String) :
    sourceValue env (some fileVars) n = sourceValue (env ++ fileVars) none n := by
  rw [sourceValue_some, sourceValue_none, lookupKey_append]

theorem sourceValue_filterDeclared (env : EnvMap) (dotenv : Option EnvMap)
    (n : String) (hn : n ∈ declaredFields) :
    sourceValue (filterDeclared env) (Option.map filterDeclared dotenv) n =
      sourceValue env dotenv n := by
  have hc : declaredFields.contains n = true := by
    simpa [List.contains] using hn
  have hf : ∀ l : EnvMap, lookupKey (filterDeclared l) n = lookupKey l n :=
    fun l => lookupKey_filter _ l n hc
  cases dotenv with
  | none =>
    rw [show Option.map filterDeclared (none : Option EnvMap) = none from rfl,
      sourceValue_none, sourceValue_none, hf env]
  | some fileVars =>
    rw [show Option.map filterDeclared (some fileVars) =
        some (filterDeclared fileVars) from rfl,
      sourceValue_some, sourceValue_some, hf env, hf fileVars]

/-- Claim C1: constructing `Settings` with an empty process environment and
no `.env` file succeeds and yields exactly the defaults of §3 for every
field. -/
theorem load_empty_yields_defaults :
    load [] none = Except.ok defaultSettings ∧
    defaultSettings.HTTP_BASE_URL = "https://data-argo.ifremer.fr" ∧
    defaultSettings.HTTP_TIMEOUT = 30 ∧
    defaultSettings.ARGO_DAC = "incois" ∧
    defaultSettings.LOCAL_STAGE_PATH = "/tmp/raw_staging" ∧
    defaultSettings.PARQUET_STAGING_PATH = "/tmp/parquet_staging" ∧
    defaultSettings.ENVIRONMENT = "prod" ∧
    defaultSettings.LOG_LEVEL = "INFO" ∧
    defaultSettings.PG_WRITE_URL = none ∧
    defaultSettings.DB_TIMEOUT = 30 ∧
    defaultSettings.S3_ACCESS_KEY = none ∧
    defaultSettings.S3_SECRET_KEY = none ∧
    defaultSettings.S3_BUCKET_NAME = "atlas" ∧
    defaultSettings.S3_ENDPOINT = none ∧
    defaultSettings.S3_REGION = "auto" ∧
    defaultSettings.PARQUET_COMPRESSION = "snappy" := by
  refine ⟨rfl, rfl, rfl, rfl, rfl, rfl, rfl, rfl, rfl, rfl, rfl, rfl, rfl,
    rfl, rfl, rfl⟩

/-- Claim C2: the loaded value of every field follows the precedence order
process environment, then `.env` file, then default: loading with an
environment and a `.env` file is the same as loading with the file's pairs
appended after (hence shadowed by) the environment, a key defined in the
process environment keeps its environment value as the per-field source
whatever the `.env` file says, and only when the environment does not
define the key is the `.env` value consulted.  The default is used exactly
when the selected source is `none` (see the `coerce` functions applied by
`loadFrom`), and a concretely overridden field is reflected in the loaded
record. -/
theorem load_precedence (env fileVars : EnvMap) (n v : String) :
    load env (some fileVars) = load (env ++ fileVars) none ∧
    (lookupKey env n = some v → sourceValue env (some fileVars) n = some v) ∧
    (lookupKey env n = none →
      sourceValue env (some fileVars) n = lookupKey fileVars n) ∧
    (∀ s, load (("ARGO_DAC", v) :: env) (some fileVars) = Except.ok s →
      s.ARGO_DAC = v) := by
  refine ⟨?_, ?_, ?_, ?_⟩
  · exact loadFrom_congr _ _ fun m _ => sourceValue_append env fileVars m
  · intro h
    unfold sourceValue
    rw [h]
  · intro h
    unfold sourceValue
    rw [h]
  · intro s hs
    have hsv : sourceValue (("ARGO_DAC", v) :: env) (some fileVars) "ARGO_DAC"
        = some v := by
      unfold sourceValue
      simp [lookupKey]
    unfold load loadFrom at hs
    cases hH : coerceInt "HTTP_TIMEOUT" 30
        (sourceValue (("ARGO_DAC", v) :: env) (some fileVars) "HTTP_TIMEOUT") with
    | error e => rw [hH] at hs; simp at hs
    | ok i =>
      cases hD : coerceInt "DB_TIMEOUT" 30
          (sourceValue (("ARGO_DAC", v) :: env) (some fileVars) "DB_TIMEOUT") with
      | error e => rw [hH, hD] at hs; simp at hs
      | ok j =>
        rw [hH, hD] at hs
        simp only [Except.ok.injEq] at hs
        rw [← hs, hsv]
        rfl

/-- Claim C2 witness: at a concrete environment and `.env` file that both
define `ARGO_DAC` with different values, loading agrees with loading the
shadowed concatenation (so the process-environment value wins). -/
theorem load_precedence_witness :
    load [("ARGO_DAC", "aoml")] (some [("ARGO_DAC", "coriolis")]) =
      load ([("ARGO_DAC", "aoml")] ++ [("ARGO_DAC", "coriolis")]) none :=
  (load_precedence [("ARGO_DAC", "aoml")] [("ARGO_DAC", "coriolis")]
    "ARGO_DAC" "aoml").1

/-- Claim C5: keys that do not correspond to a declared `Settings` field
are ignored: stripping every unknown key from the process environment and
from the `.env` file leaves the result of loading unchanged (so unknown
keys neither affect any field nor cause an error), and concretely an
environment holding only `FOO_BAR=baz` loads successfully to the
defaults. -/
theorem unknown_keys_ignored (env : EnvMap) (dotenv : Option EnvMap) :
    load (filterDeclared env) (Option.map filterDeclared dotenv) =
      load env dotenv ∧
    load [("FOO_BAR", "baz")] none = Except.ok defaultSettings := by
  constructor
  · exact loadFrom_congr _ _ fun n hn =>
      sourceValue_filterDeclared env dotenv n hn
  · rfl

/-- Claim C6: construction never fails due to missing configuration: for
every process environment and every `.env` state (`none`, the missing
file, included) in which each supplied integer-field value parses as an
integer, loading succeeds — every field of the resulting record then holds
a well-defined value because `Settings` is a total record. -/
theorem load_never_fails_when_ints_parse (env : EnvMap)
    (dotenv : Option EnvMap)
    (h1 : ∀ s, sourceValue env dotenv "HTTP_TIMEOUT" = some s →
      (parseInt s).isSome = true)
    (h2 : ∀ s, sourceValue env dotenv "DB_TIMEOUT" = some s →
      (parseInt s).isSome = true) :
    (load env dotenv).isOk = true := by
  have hH : ∃ i, coerceInt "HTTP_TIMEOUT" 30
      (sourceValue env dotenv "HTTP_TIMEOUT") = Except.ok i := by
    cases ho : sourceValue env dotenv "HTTP_TIMEOUT" with
    | none => exact ⟨30, rfl⟩
    | some s =>
      have hs := h1 s ho
      cases ht : parseInt s with
      | none => rw [ht] at hs; simp at hs
      | some i => exact ⟨i, by simp [coerceInt, ht]⟩
  have hD : ∃ j, coerceInt "DB_TIMEOUT" 30
      (sourceValue env dotenv "DB_TIMEOUT") = Except.ok j := by
    cases ho : sourceValue env dotenv "DB_TIMEOUT" with
    | none => exact ⟨30, rfl⟩
    | some s =>
      have hs := h2 s ho
      cases ht : parseInt s with
      | none => rw [ht] at hs; simp at hs
      | some j => exact ⟨j, by simp [coerceInt, ht]⟩
  obtain ⟨i, hi⟩ := hH
  obtain ⟨j, hj⟩ := hD
  unfold load loadFrom
  rw [hi, hj]
  rfl

/-- Claim C6 witness: with an empty environment and no `.env` file,
construction succeeds. -/
theorem load_never_fails_when_ints_parse_witness :
    (load [] none).isOk = true :=
  load_never_fails_when_ints_parse [] none
    (fun s hs => by simp [sourceValue, lookupKey] at hs)
    (fun s hs => by simp [sourceValue, lookupKey] at hs)

/-- Claim C3: a source string for an integer field that does not parse as a
decimal integer makes construction fail with a `ConfigError` naming the
offending field and carrying the invalid value supplied — never a silent
fallback to the default: when `HTTP_TIMEOUT`'s source value fails to parse
the error names `HTTP_TIMEOUT`, and when `HTTP_TIMEOUT` coerces
successfully but `DB_TIMEOUT`'s source value fails to parse the error
names `DB_TIMEOUT`. -/
theorem int_parse_failure_raises (env : EnvMap) (dotenv : Option EnvMap)
    (s t : String) :
    (sourceValue env dotenv "HTTP_TIMEOUT" = some s → parseInt s = none →
      load env dotenv =
        Except.error { field := "HTTP_TIMEOUT", value := s }) ∧
    ((coerceInt "HTTP_TIMEOUT" 30
        (sourceValue env dotenv "HTTP_TIMEOUT")).isOk = true →
      sourceValue env dotenv "DB_TIMEOUT" = some t → parseInt t = none →
      load env dotenv =
        Except.error { field := "DB_TIMEOUT", value := t }) := by
  constructor
  · intro hs hbad
    unfold load loadFrom
    rw [hs]
    simp [coerceInt, hbad]
  · intro hok ht hbad
    cases hH : coerceInt "HTTP_TIMEOUT" 30
        (sourceValue env dotenv "HTTP_TIMEOUT") with
    | error e => rw [hH] at hok; simp [Except.isOk, Except.toBool] at hok
    | ok i =>
      unfold load loadFrom
      rw [hH, ht]
      simp [coerceInt, hbad]

/-- Claim C3 witness: supplying `HTTP_TIMEOUT=thirty` in the process
environment makes construction fail with a `ConfigError` naming
`HTTP_TIMEOUT` and the value "thirty". -/
theorem int_parse_failure_raises_witness :
    load [("HTTP_TIMEOUT", "thirty")] none =
      Except.error { field := "HTTP_TIMEOUT", value := "thirty" } :=
  (int_parse_failure_raises [("HTTP_TIMEOUT", "thirty")] none "thirty" "").1
    rfl (by decide)

/-- Claim C4: for each `Optional[str]` field, supplying the literal string
"None" (exact case) in the environment or the `.env` file yields the
absent value in the loaded record, while supplying the empty string yields
a present empty string, and the two loaded values are distinguishable. -/
theorem none_sentinel_optional (env : EnvMap) (dotenv : Option EnvMap)
    (n : String) (st : Settings)
    (hn : n ∈ optionalNames) (hok : load env dotenv = Except.ok st) :
    (sourceValue env dotenv n = some "None" → optField st n = some none) ∧
    (sourceValue env dotenv n = some "" → optField st n = some (some "")) ∧
    some (none : Option String) ≠ some (some "") := by
  cases hH : coerceInt "HTTP_TIMEOUT" 30
      (sourceValue env dotenv "HTTP_TIMEOUT") with
  | error e => unfold load loadFrom at hok; rw [hH] at hok; simp at hok
  | ok i =>
    cases hD : coerceInt "DB_TIMEOUT" 30
        (sourceValue env dotenv "DB_TIMEOUT") with
    | error e => unfold load loadFrom at hok; rw [hH, hD] at hok; simp at hok
    | ok j =>
      unfold load loadFrom at hok
      rw [hH, hD] at hok
      simp only [Except.ok.injEq] at hok
      subst hok
      simp only [optionalNames, List.mem_cons, List.not_mem_nil,
        or_false] at hn
      rcases hn with rfl | rfl | rfl | rfl <;>
        exact ⟨fun hv => by simp [optField, hv, coerceOptStr],
          fun hv => by simp [optField, hv, coerceOptStr], by simp⟩

/-- Claim C4 witness: supplying `PG_WRITE_URL=None` in the process
environment loads successfully and the loaded `PG_WRITE_URL` is the absent
value. -/
theorem none_sentinel_optional_witness :
    optField defaultSettings "PG_WRITE_URL" = some none :=
  ((none_sentinel_optional [("PG_WRITE_URL", "None")] none "PG_WRITE_URL"
    defaultSettings (by decide) rfl).1) rfl

/-- Character-level ASCII case folding: uppercase letters map to their
lowercase counterparts, every other character is unchanged. -/
def foldCaseChar (c : Char) : Char :=
  if 65 ≤ c.toNat ∧ c.toNat ≤ 90 then Char.ofNat (c.toNat + 32) else c

/-- String-level case folding; two strings differ only in letter case
exactly when they are distinct but fold to the same string. -/
def foldCase (s : String) : String := ⟨s.data.map foldCaseChar⟩

theorem declared_no_case_collision :
    ∀ a ∈ declaredFields, ∀ b ∈ declaredFields,
      foldCase a = foldCase b → a = b := by decide

/-- Claim C7: key matching is exact-case with no case folding: a key that
differs from a declared field name only in letter case (it folds to the
same string but is not equal) overrides nothing — adding it to the process
environment or to the `.env` file leaves the loaded record unchanged, so
the field keeps its default or other-source value. -/
theorem case_sensitive_matching (k f v : String) (env fileVars : EnvMap)
    (hf : f ∈ declaredFields) (hfold : foldCase k = foldCase f)
    (hne : k ≠ f) :
    load ((k, v) :: env) (some fileVars) = load env (some fileVars) ∧
    load env (some ((k, v) :: fileVars)) = load env (some fileVars) := by
  have hk : k ∉ declaredFields := fun hmem =>
    hne (declared_no_case_collision k hmem f hf hfold)
  constructor
  · refine loadFrom_congr _ _ fun n hn => ?_
    have hnk : n ≠ k := fun h => hk (h ▸ hn)
    rw [sourceValue_some, sourceValue_some,
      lookupKey_cons_ne k v n env hnk]
  · refine loadFrom_congr _ _ fun n hn => ?_
    have hnk : n ≠ k := fun h => hk (h ▸ hn)
    rw [sourceValue_some, sourceValue_some,
      lookupKey_cons_ne k v n fileVars hnk]

/-- Claim C7 witness: the lowercase key `http_timeout` in the process
environment does not override the `HTTP_TIMEOUT` field. -/
theorem case_sensitive_matching_witness :
    load [("http_timeout", "5")] (some []) = load [] (some []) :=
  (case_sensitive_matching "http_timeout" "HTTP_TIMEOUT" "5" [] []
    (by decide) (by decide) (by decide)).1

/-- Claim C9: loading is deterministic: two constructions performed with
the same process environment and the same `.env` state produce the same
outcome, and when both succeed the two records are equal (hence equal
field for field, `Settings` being a plain record). -/
theorem load_deterministic (env₁ env₂ : EnvMap) (d₁ d₂ : Option EnvMap)
    (st₁ st₂ : Settings) (henv : env₁ = env₂) (hd : d₁ = d₂)
    (h₁ : load env₁ d₁ = Except.ok st₁)
    (h₂ : load env₂ d₂ = Except.ok st₂) :
    load env₁ d₁ = load env₂ d₂ ∧ st₁ = st₂ := by
  subst henv
  subst hd
  rw [h₁] at h₂
  exact ⟨rfl, Except.ok.inj h₂⟩

/-- Claim C9 witness: two loads from the empty environment with no `.env`
file agree and produce the same record. -/
theorem load_deterministic_witness :
    load [] none = load [] none ∧ defaultSettings = defaultSettings :=
  load_deterministic [] [] none none defaultSettings defaultSettings
    rfl rfl rfl rfl

/-- Claim C10: the "None" sentinel applies only to the `Optional`-typed
fields: a plain (non-optional) string field whose source value is the
literal string "None" holds the literal string "None" in the loaded
record. -/
theorem none_literal_plain_kept (env : EnvMap) (dotenv : Option EnvMap)
    (n : String) (st : Settings)
    (hn : n ∈ plainStringNames)
    (hv : sourceValue env dotenv n = some "None")
    (hok : load env dotenv = Except.ok st) :
    strField st n = some "None" := by
  cases hH : coerceInt "HTTP_TIMEOUT" 30
      (sourceValue env dotenv "HTTP_TIMEOUT") with
  | error e => unfold load loadFrom at hok; rw [hH] at hok; simp at hok
  | ok i =>
    cases hD : coerceInt "DB_TIMEOUT" 30
        (sourceValue env dotenv "DB_TIMEOUT") with
    | error e => unfold load loadFrom at hok; rw [hH, hD] at hok; simp at hok
    | ok j =>
      unfold load loadFrom at hok
      rw [hH, hD] at hok
      simp only [Except.ok.injEq] at hok
      subst hok
      simp only [plainStringNames, List.mem_cons, List.not_mem_nil,
        or_false] at hn
      rcases hn with rfl | rfl | rfl | rfl | rfl | rfl | rfl | rfl | rfl <;>
        simp [strField, hv, coerceStr]

/-- Claim C10 witness: supplying `S3_REGION=None` loads successfully (it
does not fail and does not become absent) and the loaded `S3_REGION` is
the literal string "None". -/
theorem none_literal_plain_kept_witness :
    load [("S3_REGION", "None")] none =
      Except.ok { defaultSettings with S3_REGION := "None" } ∧
    strField { defaultSettings with S3_REGION := "None" } "S3_REGION" =
      some "None" :=
  ⟨rfl, none_literal_plain_kept [("S3_REGION", "None")] none "S3_REGION"
    { defaultSettings with S3_REGION := "None" } (by decide) rfl rfl⟩

end LogPose
